import Mathlib

/-!
Shallow embedding of `src/health-etl/glue_job_script.py` (an AWS Glue ETL
job): argument resolution, the non-CSV guard, source/destination path
construction, the `withColumn("ingest_date", lit(d))` transform, and the
append-mode, partitioned Parquet write.  The distributed engine's read is
modelled as an oracle `readCsv : String → Except String DataFrame` (errors
stand for an unreadable source or zero matching objects); the destination
object store is modelled as a list of output files.
-/

namespace GlueEtl

/-- A cell of a typed DataFrame.  Spark's `inferSchema` yields string,
numeric or boolean columns; `F.lit(ingest_date)` is a string literal. -/
inductive Cell where
  | str : String → Cell
  | int : Int → Cell
  | bool : Bool → Cell
  deriving DecidableEq, Repr

/-- The string Spark uses for a partition value in the directory name. -/
def cellToPartString : Cell → String
  | .str s => s
  | .int i => toString i
  | .bool b => toString b

/-- A materialized Spark DataFrame: header-derived column names plus rows. -/
structure DataFrame where
  cols : List String
  rows : List (List Cell)
  deriving DecidableEq, Repr

/-- A DataFrame is rectangular: every row has one cell per column.
Spark guarantees this for any DataFrame produced by its CSV reader. -/
def WF (df : DataFrame) : Prop :=
  ∀ r ∈ df.rows, r.length = df.cols.length

/-- Index of the first occurrence of a column name in a header. -/
def colIndex : List String → String → Option Nat
  | [], _ => none
  | c :: cs, x => if c = x then some 0 else (colIndex cs x).map (· + 1)

/-- Spark `DataFrame.withColumn(name, lit v)`: per Spark's documented
semantics, replaces the existing column of that name in place, or appends
a new column when no column of that name exists.  The job calls this at
line 44 of `glue_job_script.py` with name `"ingest_date"`. -/
def withColumn (df : DataFrame) (name : String) (v : Cell) : DataFrame :=
  match colIndex df.cols name with
  | some i => ⟨df.cols, df.rows.map (fun r => r.set i v)⟩
  | none => ⟨df.cols ++ [name], df.rows.map (fun r => r ++ [v])⟩

/-- One output file committed to the curated store.  `dir` is the directory
the file lands in (base path plus `partCol=value` subdirectory).  Rows keep
the partition column, matching the logical view Spark reconstitutes when
the partitioned dataset is read back. -/
structure OutFile where
  dir : String
  cols : List String
  rows : List (List Cell)
  deriving DecidableEq, Repr

/-- The files a `write.mode("append").partitionBy(partCol).parquet(outPath)`
call adds: one file per distinct partition value, holding the rows with
that value, under `outPath/partCol=value`.  (`repartition(1)` in the source
only forces one file per partition, which this already reflects.) -/
def newFilesFor (outPath partCol : String) (df : DataFrame) : List OutFile :=
  match colIndex df.cols partCol with
  | none => []
  | some i =>
    ((df.rows.filterMap (fun r => r.get? i)).dedup).map (fun v =>
      ⟨outPath ++ "/" ++ partCol ++ "=" ++ cellToPartString v, df.cols,
       df.rows.filter (fun r => r.get? i == some v)⟩)

/-- Append-mode partitioned write: every file already at the destination is
kept and the new files are committed alongside them (lines 48-53). -/
def writeAppendPartitioned (store : List OutFile) (outPath partCol : String)
    (df : DataFrame) : List OutFile :=
  store ++ newFilesFor outPath partCol df

/-- Line 33: `OBJ_KEY.lower().endswith(".csv")`, modelled character-wise:
lower-case every character of the key and test for the `.csv` suffix. -/
def isCsvKey (key : String) : Bool :=
  List.isSuffixOf ".csv".data (key.data.map Char.toLower)

/-- Line 37: `f"s3://{RAW_BUCKET}/{OBJ_KEY}" if OBJ_KEY else
f"s3://{RAW_BUCKET}/{RAW_PREFIX}"`. -/
def src_path (rawBucket rawPfx objKey : String) : String :=
  if objKey ≠ "" then "s3://" ++ rawBucket ++ "/" ++ objKey
  else "s3://" ++ rawBucket ++ "/" ++ rawPfx

/-- Line 46: `f"s3://{CURATED_BUCKET}/{CURATED_PREFIX}"`. -/
def out_path (curatedBucket curatedPfx : String) : String :=
  "s3://" ++ curatedBucket ++ "/" ++ curatedPfx

/-- The five resolved job parameters (lines 19-23).  Field names mirror
`RAW_BUCKET`, `RAW_PREFIX`, `CURATED_BUCKET`, `CURATED_PREFIX`,
`S3_OBJECT_KEY`. -/
structure JobArgs where
  rawBucket : String
  rawPfx : String
  curatedBucket : String
  curatedPfx : String
  s3ObjectKey : String
  deriving DecidableEq, Repr

/-- `awsglue.utils.getResolvedOptions(sys.argv, names)`: every name in the
list is a required job argument; if one is missing from the invocation the
call raises (`argument --NAME is required`) before the job body runs.
Modelled from the documented behavior of this external AWS library call at
line 13. -/
def getResolvedOptions (argv : List (String × String)) (required : List String) :
    Except String (List (String × String)) :=
  match required.find? (fun n => (argv.lookup n).isNone) with
  | some n => Except.error ("argument --" ++ n ++ " is required")
  | none => Except.ok argv

/-- The list the script passes to `getResolvedOptions` (lines 13-18):
note that `S3_OBJECT_KEY` is in it. -/
def requiredGlueArgNames : List String :=
  ["RAW_BUCKET", "RAW_PREFIX", "CURATED_BUCKET", "CURATED_PREFIX", "S3_OBJECT_KEY"]

/-- Lines 13-23: resolve the options, then bind the five names;
`args.get("S3_OBJECT_KEY", "")` supplies an empty-string fallback. -/
def resolveJobArgs (argv : List (String × String)) : Except String JobArgs :=
  (getResolvedOptions argv requiredGlueArgNames).map (fun a =>
    ⟨(a.lookup "RAW_BUCKET").getD "", (a.lookup "RAW_PREFIX").getD "",
     (a.lookup "CURATED_BUCKET").getD "", (a.lookup "CURATED_PREFIX").getD "",
     (a.lookup "S3_OBJECT_KEY").getD ""⟩)

/-- How the job body ends: clean skip (line 35 `sys.exit(0)`), success
(line 55 print, normal exit), or an uncaught read error aborting the job. -/
inductive JobOutcome where
  | skipped : String → JobOutcome
  | success : String → JobOutcome
  | readFailed : String → JobOutcome
  deriving DecidableEq, Repr

/-- Process exit status for each outcome; an uncaught engine error makes
the managed job fail with a non-zero status, modelled as 1. -/
def exitCode : JobOutcome → Nat
  | .skipped _ => 0
  | .success _ => 0
  | .readFailed _ => 1

/-- Observable result of one run: the outcome (with the printed message or
propagated error), the path the read was issued against (`none` when the
guard skipped before any read), and the destination store afterwards. -/
structure RunResult where
  outcome : JobOutcome
  srcRead : Option String
  store : List OutFile
  deriving Repr

/-- The job body (lines 33-55): guard, read at `src_path`, add
`ingest_date`, append-write partitioned by it at `out_path`.
`ingest_date` is the `YYYY-MM-DD` UTC date string computed once at line 26;
`readCsv` is the engine's schema-inferring CSV read, `store` the curated
destination before the run. -/
def runJob (args : JobArgs) (ingest_date : String)
    (readCsv : String → Except String DataFrame)
    (store : List OutFile) : RunResult :=
  let k := args.s3ObjectKey
  if k != "" && !(isCsvKey k) then
    ⟨.skipped ("Non-CSV detected (" ++ k ++ "); skipping."), none, store⟩
  else
    let src := src_path args.rawBucket args.rawPfx k
    match readCsv src with
    | .error e => ⟨.readFailed e, some src, store⟩
    | .ok df =>
      let df2 := withColumn df "ingest_date" (Cell.str ingest_date)
      let out := out_path args.curatedBucket args.curatedPfx
      ⟨.success ("Wrote Parquet to " ++ out ++ " partition=" ++ ingest_date),
       some src,
       writeAppendPartitioned store out "ingest_date" df2⟩

/-- All rows stored in files committed to a given directory. -/
def rowsUnderDir (store : List OutFile) (dir : String) : List (List Cell) :=
  ((store.filter (fun f => f.dir == dir)).map OutFile.rows).flatten

lemma colIndex_lt_length {cols : List String} {x : String} {i : Nat}
    (h : colIndex cols x = some i) : i < cols.length := by
  induction cols generalizing i with
  | nil => simp [colIndex] at h
  | cons c cs ih =>
    by_cases hc : c = x
    · simp [colIndex, hc] at h
      simp only [List.length_cons]
      omega
    · simp only [colIndex, hc, if_neg, ite_false, Option.map_eq_some'] at h
      obtain ⟨j, hj, rfl⟩ := h
      have := ih hj
      simp
      omega

lemma colIndex_eq_none_iff {cols : List String} {x : String} :
    colIndex cols x = none ↔ x ∉ cols := by
  induction cols with
  | nil => simp [colIndex]
  | cons c cs ih =>
    by_cases hc : c = x
    · simp [colIndex, hc]
    · simp [colIndex, hc, Option.map_eq_none', ih, Ne.symm hc]

lemma colIndex_append_self {cols : List String} {x : String} (h : x ∉ cols) :
    colIndex (cols ++ [x]) x = some cols.length := by
  induction cols with
  | nil => simp [colIndex]
  | cons c cs ih =>
    have hc : c ≠ x := fun hcx => h (hcx ▸ List.mem_cons_self c cs)
    have hcs : x ∉ cs := fun hx => h (List.mem_cons_of_mem c hx)
    simp [colIndex, hc, ih hcs]

lemma get?_set_self {α : Type} (l : List α) (i : Nat) (v : α) (h : i < l.length) :
    (l.set i v).get? i = some v := by
  induction l generalizing i with
  | nil => simp at h
  | cons a t ih =>
    cases i with
    | zero => rfl
    | succ j =>
      simp only [List.set_cons_succ, List.get?_cons_succ]
      exact ih j (by simpa using h)

lemma get?_append_length {α : Type} (l : List α) (v : α) :
    (l ++ [v]).get? l.length = some v := by
  induction l with
  | nil => rfl
  | cons a t ih => simpa using ih

/-- The transformed frame has an `ingest_date` column and, for rectangular
input, every transformed row holds the supplied cell there. -/
lemma withColumn_cell (df : DataFrame) (name : String) (v : Cell) (hwf : WF df) :
    ∃ i, colIndex (withColumn df name v).cols name = some i ∧
      ∀ r ∈ (withColumn df name v).rows, r.get? i = some v := by
  cases h : colIndex df.cols name with
  | some i =>
    refine ⟨i, ?_, ?_⟩
    · simpa [withColumn, h] using h
    · intro r hr
      simp only [withColumn, h, List.mem_map] at hr
      obtain ⟨r0, hr0, rfl⟩ := hr
      exact get?_set_self r0 i v (by rw [hwf r0 hr0]; exact colIndex_lt_length h)
  | none =>
    have hnm : name ∉ df.cols := colIndex_eq_none_iff.mp h
    refine ⟨df.cols.length, ?_, ?_⟩
    · simpa [withColumn, h] using colIndex_append_self hnm
    · intro r hr
      simp only [withColumn, h, List.mem_map] at hr
      obtain ⟨r0, hr0, rfl⟩ := hr
      rw [← hwf r0 hr0]
      exact get?_append_length r0 v

/-- Shape of any file the partitioned write commits: the frame's columns, a
subset of its rows, and a directory of the form `outPath/partCol=value`. -/
lemma newFilesFor_mem {outPath partCol : String} {df : DataFrame} {f : OutFile}
    (hf : f ∈ newFilesFor outPath partCol df) :
    f.cols = df.cols ∧ (∀ row ∈ f.rows, row ∈ df.rows) ∧
      ∃ s, f.dir = outPath ++ "/" ++ partCol ++ "=" ++ s := by
  unfold newFilesFor at hf
  cases h : colIndex df.cols partCol with
  | none => rw [h] at hf; simp at hf
  | some i =>
    rw [h] at hf
    simp only [List.mem_map] at hf
    obtain ⟨v, _, rfl⟩ := hf
    exact ⟨rfl, fun row hrow => (List.mem_filter.mp hrow).1, cellToPartString v, rfl⟩

lemma dedup_eq_single {α : Type} [DecidableEq α] (v : α) :
    ∀ l : List α, l ≠ [] → (∀ x ∈ l, x = v) → l.dedup = [v] := by
  intro l
  induction l with
  | nil => simp
  | cons a t ih =>
    intro _ hall
    have ha : a = v := hall a (List.mem_cons_self a t)
    subst ha
    cases t with
    | nil => simp
    | cons b u =>
      have hb : b = a := (hall b (by simp)).trans ((hall a (by simp)).symm)
      subst hb
      have ht : (b :: u).dedup = [b] :=
        ih (by simp) (fun x hx => hall x (List.mem_cons_of_mem b hx))
      rw [List.dedup_cons_of_mem (by simp), ht]

/-- When every row carries the same value in the partition column, the
write commits exactly one file (or none for an empty frame): the whole
frame under `outPath/partCol=value`. -/
lemma newFilesFor_const {outPath partCol : String} {df : DataFrame} {i : Nat}
    {v : Cell} (hidx : colIndex df.cols partCol = some i)
    (hall : ∀ r ∈ df.rows, r.get? i = some v) :
    newFilesFor outPath partCol df =
      if df.rows = [] then []
      else [⟨outPath ++ "/" ++ partCol ++ "=" ++ cellToPartString v,
            df.cols, df.rows⟩] := by
  unfold newFilesFor
  rw [hidx]
  dsimp only
  by_cases hnil : df.rows = []
  · simp [hnil]
  · have hvals : ∀ x ∈ df.rows.filterMap (fun r => r.get? i), x = v := by
      intro x hx
      obtain ⟨r, hr, hrx⟩ := List.mem_filterMap.mp hx
      have := hall r hr
      rw [this] at hrx
      exact (Option.some_inj.mp hrx).symm
    have hne : df.rows.filterMap (fun r => r.get? i) ≠ [] := by
      obtain ⟨r, hr⟩ := List.exists_mem_of_ne_nil df.rows hnil
      intro hcon
      have : v ∈ df.rows.filterMap (fun r => r.get? i) :=
        List.mem_filterMap.mpr ⟨r, hr, hall r hr⟩
      rw [hcon] at this
      simp at this
    rw [dedup_eq_single v _ hne hvals]
    have hfil : df.rows.filter (fun r => r.get? i == some v) = df.rows := by
      rw [List.filter_eq_self]
      intro r hr
      rw [hall r hr]
      simp
    dsimp only [List.map_cons, List.map_nil]
    rw [hfil, if_neg hnil]

lemma rowsUnderDir_append (s t : List OutFile) (dir : String) :
    rowsUnderDir (s ++ t) dir = rowsUnderDir s dir ++ rowsUnderDir t dir := by
  simp [rowsUnderDir, List.filter_append]

/-- The guard condition is false when the key is empty or names a CSV. -/
lemma guard_false_of (args : JobArgs)
    (hg : args.s3ObjectKey = "" ∨ isCsvKey args.s3ObjectKey = true) :
    (args.s3ObjectKey != "" && !(isCsvKey args.s3ObjectKey)) = false := by
  rcases hg with h | h <;> simp [h]

lemma runJob_of_read_error (args : JobArgs) (d : String)
    (readCsv : String → Except String DataFrame) (store : List OutFile) (e : String)
    (hg : args.s3ObjectKey = "" ∨ isCsvKey args.s3ObjectKey = true)
    (hread : readCsv (src_path args.rawBucket args.rawPfx args.s3ObjectKey) =
      Except.error e) :
    runJob args d readCsv store =
      ⟨JobOutcome.readFailed e,
       some (src_path args.rawBucket args.rawPfx args.s3ObjectKey), store⟩ := by
  simp [runJob, guard_false_of args hg, hread]

lemma runJob_of_read_ok (args : JobArgs) (d : String)
    (readCsv : String → Except String DataFrame) (store : List OutFile)
    (df : DataFrame)
    (hg : args.s3ObjectKey = "" ∨ isCsvKey args.s3ObjectKey = true)
    (hread : readCsv (src_path args.rawBucket args.rawPfx args.s3ObjectKey) =
      Except.ok df) :
    runJob args d readCsv store =
      ⟨JobOutcome.success ("Wrote Parquet to " ++
          out_path args.curatedBucket args.curatedPfx ++ " partition=" ++ d),
       some (src_path args.rawBucket args.rawPfx args.s3ObjectKey),
       store ++ newFilesFor (out_path args.curatedBucket args.curatedPfx)
         "ingest_date" (withColumn df "ingest_date" (Cell.str d))⟩ := by
  simp [runJob, guard_false_of args hg, hread, writeAppendPartitioned]

/-- C1: if `S3_OBJECT_KEY` is non-empty and does not end in `.csv`
case-insensitively, the run performs no read (`srcRead = none`) and no
write (the store is unchanged), emits the one skip message naming the
key, and exits with status 0. -/
theorem C1_non_csv_key_skips (args : JobArgs) (d : String)
    (readCsv : String → Except String DataFrame) (store : List OutFile)
    (hk : args.s3ObjectKey ≠ "") (hcsv : isCsvKey args.s3ObjectKey = false) :
    runJob args d readCsv store =
      ⟨JobOutcome.skipped ("Non-CSV detected (" ++ args.s3ObjectKey ++ "); skipping."),
       none, store⟩ ∧
    exitCode (runJob args d readCsv store).outcome = 0 := by
  have h1 : (args.s3ObjectKey != "") = true := bne_iff_ne.mpr hk
  refine ⟨?_, ?_⟩ <;> simp [runJob, h1, hcsv, exitCode]

/-- Witness for C1 at the spec's Scenario 3 key `drop/file.json`. -/
theorem C1_witness :
    runJob ⟨"raw-bkt", "raw/", "cur-bkt", "cur/", "drop/file.json"⟩ "2026-10-12"
        (fun _ => Except.error "unused") [] =
      ⟨JobOutcome.skipped ("Non-CSV detected (" ++ "drop/file.json" ++ "); skipping."),
       none, []⟩ ∧
    exitCode (runJob ⟨"raw-bkt", "raw/", "cur-bkt", "cur/", "drop/file.json"⟩
        "2026-10-12" (fun _ => Except.error "unused") []).outcome = 0 :=
  C1_non_csv_key_skips _ _ _ _ (by decide) (by decide)

/-- C9: a non-empty key ending in `.csv` under any casing passes the guard
and the job proceeds through read, transform and append-write. -/
theorem C9_csv_key_proceeds (args : JobArgs) (d : String)
    (readCsv : String → Except String DataFrame) (store : List OutFile)
    (df : DataFrame) (_hk : args.s3ObjectKey ≠ "")
    (hcsv : isCsvKey args.s3ObjectKey = true)
    (hread : readCsv (src_path args.rawBucket args.rawPfx args.s3ObjectKey) =
      Except.ok df) :
    runJob args d readCsv store =
      ⟨JobOutcome.success ("Wrote Parquet to " ++
          out_path args.curatedBucket args.curatedPfx ++ " partition=" ++ d),
       some (src_path args.rawBucket args.rawPfx args.s3ObjectKey),
       store ++ newFilesFor (out_path args.curatedBucket args.curatedPfx)
         "ingest_date" (withColumn df "ingest_date" (Cell.str d))⟩ :=
  runJob_of_read_ok args d readCsv store df (Or.inr hcsv) hread

/-- Witness for C9 at the spec's Scenario 2 key `drop/file.CSV`. -/
theorem C9_witness :
    ("drop/file.CSV" : String) ≠ "" ∧ isCsvKey "drop/file.CSV" = true ∧
    runJob ⟨"rb", "raw/", "cb", "cur/", "drop/file.CSV"⟩ "2026-10-12"
        (fun _ => Except.ok ⟨["id"], [[Cell.int 1]]⟩) [] =
      ⟨JobOutcome.success ("Wrote Parquet to " ++ out_path "cb" "cur/" ++
          " partition=" ++ "2026-10-12"),
       some (src_path "rb" "raw/" "drop/file.CSV"),
       [] ++ newFilesFor (out_path "cb" "cur/") "ingest_date"
         (withColumn ⟨["id"], [[Cell.int 1]]⟩ "ingest_date"
           (Cell.str "2026-10-12"))⟩ :=
  ⟨by decide, by decide,
   C9_csv_key_proceeds _ _ _ _ _ (by decide) (by decide) rfl⟩

/-- C7: when the guard passes but the engine's read fails (unreadable
source or zero matching objects), the job aborts with the error propagated
verbatim, a non-zero exit status, and an unchanged destination store. -/
theorem C7_read_failure_aborts (args : JobArgs) (d : String)
    (readCsv : String → Except String DataFrame) (store : List OutFile)
    (e : String)
    (hg : args.s3ObjectKey = "" ∨ isCsvKey args.s3ObjectKey = true)
    (hread : readCsv (src_path args.rawBucket args.rawPfx args.s3ObjectKey) =
      Except.error e) :
    runJob args d readCsv store =
      ⟨JobOutcome.readFailed e,
       some (src_path args.rawBucket args.rawPfx args.s3ObjectKey), store⟩ ∧
    exitCode (runJob args d readCsv store).outcome ≠ 0 := by
  have h := runJob_of_read_error args d readCsv store e hg hread
  refine ⟨h, ?_⟩
  rw [h]
  simp [exitCode]

/-- Witness for C7: prefix mode with a read that fails. -/
theorem C7_witness :
    (("" : String) = "" ∨ isCsvKey "" = true) ∧
    runJob ⟨"rb", "raw/", "cb", "cur/", ""⟩ "2026-10-12"
        (fun _ => Except.error "Path does not exist") [] =
      ⟨JobOutcome.readFailed "Path does not exist",
       some (src_path "rb" "raw/" ""), []⟩ ∧
    exitCode (runJob ⟨"rb", "raw/", "cb", "cur/", ""⟩ "2026-10-12"
        (fun _ => Except.error "Path does not exist") []).outcome ≠ 0 :=
  ⟨Or.inl rfl,
   C7_read_failure_aborts _ _ _ _ _ (Or.inl rfl) rfl⟩

/-- C6: every run leaves the destination store a superset of what was
there: the result is the old store with new files appended after it, so
no existing file (in particular no existing same-date partition file) is
replaced or removed. -/
theorem C6_append_preserves_store (args : JobArgs) (d : String)
    (readCsv : String → Except String DataFrame) (store : List OutFile) :
    ∃ new, (runJob args d readCsv store).store = store ++ new := by
  by_cases hc : (args.s3ObjectKey != "" && !(isCsvKey args.s3ObjectKey)) = true
  · exact ⟨[], by simp [runJob, hc]⟩
  · have hc' : (args.s3ObjectKey != "" && !(isCsvKey args.s3ObjectKey)) = false :=
      eq_false_of_ne_true hc
    cases hr : readCsv (src_path args.rawBucket args.rawPfx args.s3ObjectKey) with
    | error e => exact ⟨[], by simp [runJob, hc', hr]⟩
    | ok df =>
      refine ⟨newFilesFor (out_path args.curatedBucket args.curatedPfx)
        "ingest_date" (withColumn df "ingest_date" (Cell.str d)), ?_⟩
      simp [runJob, hc', hr, writeAppendPartitioned]

/-- C5: on any non-skipped run the read is issued against
`s3://RAW_BUCKET/S3_OBJECT_KEY` when the key is non-empty and against
`s3://RAW_BUCKET/RAW_PREFIX` otherwise, and every file the run adds lives
under `s3://CURATED_BUCKET/CURATED_PREFIX`. -/
theorem C5_resolved_locations (args : JobArgs) (d : String)
    (readCsv : String → Except String DataFrame) (store : List OutFile)
    (hg : args.s3ObjectKey = "" ∨ isCsvKey args.s3ObjectKey = true) :
    (runJob args d readCsv store).srcRead =
      some (if args.s3ObjectKey ≠ ""
        then "s3://" ++ args.rawBucket ++ "/" ++ args.s3ObjectKey
        else "s3://" ++ args.rawBucket ++ "/" ++ args.rawPfx) ∧
    ∀ f ∈ (runJob args d readCsv store).store, f ∉ store →
      ∃ rest, f.dir = "s3://" ++ args.curatedBucket ++ "/" ++ args.curatedPfx ++ rest := by
  cases hr : readCsv (src_path args.rawBucket args.rawPfx args.s3ObjectKey) with
  | error e =>
    rw [runJob_of_read_error args d readCsv store e hg hr]
    refine ⟨by simp [src_path], ?_⟩
    intro f hf hnf
    exact absurd hf hnf
  | ok df =>
    rw [runJob_of_read_ok args d readCsv store df hg hr]
    refine ⟨by simp [src_path], ?_⟩
    intro f hf hnf
    have hf2 : f ∈ newFilesFor (out_path args.curatedBucket args.curatedPfx)
        "ingest_date" (withColumn df "ingest_date" (Cell.str d)) := by
      rcases List.mem_append.mp hf with h | h
      · exact absurd h hnf
      · exact h
    obtain ⟨-, -, s, hdir⟩ := newFilesFor_mem hf2
    refine ⟨"/" ++ "ingest_date" ++ "=" ++ s, ?_⟩
    rw [hdir]
    simp [out_path, String.append_assoc]

/-- C2: on a successful run every file the run adds has an `ingest_date`
column and every row of every such file holds the job-start date `d`
there, the same value across all rows of the run. -/
theorem C2_ingest_date_uniform (args : JobArgs) (d : String)
    (readCsv : String → Except String DataFrame) (store : List OutFile)
    (df : DataFrame)
    (hg : args.s3ObjectKey = "" ∨ isCsvKey args.s3ObjectKey = true)
    (hread : readCsv (src_path args.rawBucket args.rawPfx args.s3ObjectKey) =
      Except.ok df)
    (hwf : WF df) :
    ∃ new, (runJob args d readCsv store).store = store ++ new ∧
      ∀ f ∈ new, ∃ i, colIndex f.cols "ingest_date" = some i ∧
        ∀ row ∈ f.rows, row.get? i = some (Cell.str d) := by
  rw [runJob_of_read_ok args d readCsv store df hg hread]
  refine ⟨_, rfl, ?_⟩
  intro f hf
  obtain ⟨i, hidx, hall⟩ := withColumn_cell df "ingest_date" (Cell.str d) hwf
  obtain ⟨hcols, hrows, -⟩ := newFilesFor_mem hf
  refine ⟨i, by rw [hcols]; exact hidx, ?_⟩
  intro row hrow
  exact hall row (hrows row hrow)

/-- Witness for C2: the spec's Scenario 1 frame (`id,name`, two rows). -/
theorem C2_witness :
    (("" : String) = "" ∨ isCsvKey "" = true) ∧
    ∃ new, (runJob ⟨"rb", "raw/", "cb", "cur/", ""⟩ "2026-10-12"
        (fun _ => Except.ok ⟨["id", "name"],
          [[Cell.int 1, Cell.str "a"], [Cell.int 2, Cell.str "b"]]⟩) []).store =
      [] ++ new ∧
      ∀ f ∈ new, ∃ i, colIndex f.cols "ingest_date" = some i ∧
        ∀ row ∈ f.rows, row.get? i = some (Cell.str "2026-10-12") :=
  ⟨Or.inl rfl,
   C2_ingest_date_uniform _ _ _ _ _ (Or.inl rfl) rfl
     (by unfold WF; decide)⟩

/-- C3 fails as stated: when the source header itself contains an
`ingest_date` column, the transform replaces it, so the output's
non-`ingest_date` column set lacks a column the source header names.
Concretely, for source header `id,ingest_date`, taking
`c = "ingest_date"` refutes the claimed set equality on the file the run
writes. -/
theorem C3_counterexample :
    ∃ f ∈ (runJob ⟨"rb", "raw/", "cb", "cur/", ""⟩ "2026-10-12"
        (fun _ => Except.ok ⟨["id", "ingest_date"],
          [[Cell.int 1, Cell.str "2020-01-01"]]⟩) []).store,
      ¬ (("ingest_date" ∈ f.cols ∧ "ingest_date" ≠ "ingest_date") ↔
          "ingest_date" ∈ ["id", "ingest_date"]) := by
  decide

/-- C3 (amended): provided the source header row does not itself contain a
column named `ingest_date`, every file a successful run adds has exactly
the source header's columns plus `ingest_date`: a column name other than
`ingest_date` is in the output iff the source header names it. -/
theorem C3_columns_preserved (args : JobArgs) (d : String)
    (readCsv : String → Except String DataFrame) (store : List OutFile)
    (df : DataFrame)
    (hg : args.s3ObjectKey = "" ∨ isCsvKey args.s3ObjectKey = true)
    (hread : readCsv (src_path args.rawBucket args.rawPfx args.s3ObjectKey) =
      Except.ok df)
    (hnot : "ingest_date" ∉ df.cols) :
    ∃ new, (runJob args d readCsv store).store = store ++ new ∧
      ∀ f ∈ new, ∀ c, (c ∈ f.cols ∧ c ≠ "ingest_date") ↔ c ∈ df.cols := by
  rw [runJob_of_read_ok args d readCsv store df hg hread]
  refine ⟨_, rfl, ?_⟩
  intro f hf c
  obtain ⟨hcols, -, -⟩ := newFilesFor_mem hf
  have hci : colIndex df.cols "ingest_date" = none :=
    colIndex_eq_none_iff.mpr hnot
  have hwc : (withColumn df "ingest_date" (Cell.str d)).cols =
      df.cols ++ ["ingest_date"] := by
    simp [withColumn, hci]
  rw [hcols, hwc]
  constructor
  · rintro ⟨hmem, hne⟩
    rcases List.mem_append.mp hmem with h | h
    · exact h
    · rw [List.mem_singleton] at h
      exact absurd h hne
  · intro hmem
    exact ⟨List.mem_append.mpr (Or.inl hmem), fun hcid => hnot (hcid ▸ hmem)⟩

/-- Witness for the amended C3 on the Scenario 1 header `id,name`. -/
theorem C3_witness :
    (("" : String) = "" ∨ isCsvKey "" = true) ∧
    ("ingest_date" ∉ (["id", "name"] : List String)) ∧
    ∃ new, (runJob ⟨"rb", "raw/", "cb", "cur/", ""⟩ "2026-10-12"
        (fun _ => Except.ok ⟨["id", "name"],
          [[Cell.int 1, Cell.str "a"], [Cell.int 2, Cell.str "b"]]⟩) []).store =
      [] ++ new ∧
      ∀ f ∈ new, ∀ c, (c ∈ f.cols ∧ c ≠ "ingest_date") ↔
        c ∈ (["id", "name"] : List String) :=
  ⟨Or.inl rfl, by decide,
   C3_columns_preserved ⟨"rb", "raw/", "cb", "cur/", ""⟩ "2026-10-12" _ []
     ⟨["id", "name"], [[Cell.int 1, Cell.str "a"], [Cell.int 2, Cell.str "b"]]⟩
     (Or.inl rfl) rfl (by decide)⟩

/-- C8: running the job a second time against the same source, the same
destination and the same UTC date appends a second copy of every
transformed source row to the same `ingest_date=<d>` partition directory:
the rows under that directory after two runs are the rows already there
before, followed by the run's row batch twice. -/
theorem C8_rerun_duplicates (args : JobArgs) (d : String)
    (readCsv : String → Except String DataFrame) (store : List OutFile)
    (df : DataFrame)
    (hg : args.s3ObjectKey = "" ∨ isCsvKey args.s3ObjectKey = true)
    (hread : readCsv (src_path args.rawBucket args.rawPfx args.s3ObjectKey) =
      Except.ok df)
    (hwf : WF df) :
    rowsUnderDir
        (runJob args d readCsv (runJob args d readCsv store).store).store
        (out_path args.curatedBucket args.curatedPfx ++ "/" ++ "ingest_date" ++ "=" ++ d) =
      rowsUnderDir store
        (out_path args.curatedBucket args.curatedPfx ++ "/" ++ "ingest_date" ++ "=" ++ d) ++
      (withColumn df "ingest_date" (Cell.str d)).rows ++
      (withColumn df "ingest_date" (Cell.str d)).rows := by
  obtain ⟨i, hidx, hall⟩ := withColumn_cell df "ingest_date" (Cell.str d) hwf
  have hconst := @newFilesFor_const (out_path args.curatedBucket args.curatedPfx)
    "ingest_date" (withColumn df "ingest_date" (Cell.str d)) i (Cell.str d)
    hidx hall
  have hn : rowsUnderDir
      (newFilesFor (out_path args.curatedBucket args.curatedPfx) "ingest_date"
        (withColumn df "ingest_date" (Cell.str d)))
      (out_path args.curatedBucket args.curatedPfx ++ "/" ++ "ingest_date" ++ "=" ++ d) =
      (withColumn df "ingest_date" (Cell.str d)).rows := by
    rw [hconst]
    by_cases hnil : (withColumn df "ingest_date" (Cell.str d)).rows = []
    · simp [rowsUnderDir, hnil]
    · rw [if_neg hnil]
      simp [rowsUnderDir, cellToPartString]
  rw [runJob_of_read_ok args d readCsv store df hg hread]
  rw [runJob_of_read_ok args d readCsv _ df hg hread]
  rw [List.append_assoc]
  rw [rowsUnderDir_append, rowsUnderDir_append, hn]
  rw [List.append_assoc]

/-- Witness for C8: two runs over a one-row source into an empty store. -/
theorem C8_witness :
    (("" : String) = "" ∨ isCsvKey "" = true) ∧
    rowsUnderDir
        (runJob ⟨"rb", "raw/", "cb", "cur/", ""⟩ "2026-10-12"
          (fun _ => Except.ok ⟨["id"], [[Cell.int 1]]⟩)
          (runJob ⟨"rb", "raw/", "cb", "cur/", ""⟩ "2026-10-12"
            (fun _ => Except.ok ⟨["id"], [[Cell.int 1]]⟩) []).store).store
        (out_path "cb" "cur/" ++ "/" ++ "ingest_date" ++ "=" ++ "2026-10-12") =
      rowsUnderDir []
        (out_path "cb" "cur/" ++ "/" ++ "ingest_date" ++ "=" ++ "2026-10-12") ++
      (withColumn ⟨["id"], [[Cell.int 1]]⟩ "ingest_date"
        (Cell.str "2026-10-12")).rows ++
      (withColumn ⟨["id"], [[Cell.int 1]]⟩ "ingest_date"
        (Cell.str "2026-10-12")).rows :=
  ⟨Or.inl rfl,
   C8_rerun_duplicates _ _ _ _ _ (Or.inl rfl) rfl (by unfold WF; decide)⟩

/-- C10: when the source already has an `ingest_date` column, the
transform keeps the column set unchanged and overwrites that column's
value in every row with the run's ingest date, so no source-supplied
`ingest_date` value survives into the transformed frame. -/
theorem C10_existing_column_replaced (df : DataFrame) (d : String)
    (hmem : "ingest_date" ∈ df.cols) (hwf : WF df) :
    (withColumn df "ingest_date" (Cell.str d)).cols = df.cols ∧
    ∃ i, colIndex df.cols "ingest_date" = some i ∧
      ∀ row ∈ (withColumn df "ingest_date" (Cell.str d)).rows,
        row.get? i = some (Cell.str d) := by
  cases h : colIndex df.cols "ingest_date" with
  | none => exact absurd hmem (colIndex_eq_none_iff.mp h)
  | some i =>
    refine ⟨by simp [withColumn, h], i, rfl, ?_⟩
    intro row hrow
    simp only [withColumn, h, List.mem_map] at hrow
    obtain ⟨r0, hr0, rfl⟩ := hrow
    exact get?_set_self r0 i _ (by rw [hwf r0 hr0]; exact colIndex_lt_length h)

/-- Witness for C10: a source frame whose only column is `ingest_date`. -/
theorem C10_witness :
    ("ingest_date" ∈ (["ingest_date"] : List String)) ∧
    ((withColumn ⟨["ingest_date"], [[Cell.str "2020-01-01"]]⟩ "ingest_date"
        (Cell.str "2026-10-12")).cols = ["ingest_date"] ∧
    ∃ i, colIndex ["ingest_date"] "ingest_date" = some i ∧
      ∀ row ∈ (withColumn ⟨["ingest_date"], [[Cell.str "2020-01-01"]]⟩
          "ingest_date" (Cell.str "2026-10-12")).rows,
        row.get? i = some (Cell.str "2026-10-12")) :=
  ⟨by decide,
   C10_existing_column_replaced ⟨["ingest_date"], [[Cell.str "2020-01-01"]]⟩
     "2026-10-12" (by decide) (by unfold WF; decide)⟩

/-- C4 is contradicted by the script: `S3_OBJECT_KEY` is in the list the
script passes to `getResolvedOptions`, so an invocation supplying only
the four other parameters fails at resolution instead of proceeding with
an empty-string default (the `args.get("S3_OBJECT_KEY", "")` fallback at
line 23 is unreachable for a missing argument). -/
theorem C4_missing_key_resolution_fails :
    resolveJobArgs [("RAW_BUCKET", "rb"), ("RAW_PREFIX", "raw/"),
      ("CURATED_BUCKET", "cb"), ("CURATED_PREFIX", "cur/")] =
      Except.error "argument --S3_OBJECT_KEY is required" := by
  rfl

/-- Witness for C5 in prefix mode (empty key). -/
theorem C5_witness :
    (("" : String) = "" ∨ isCsvKey "" = true) ∧
    ((runJob ⟨"rb", "raw/", "cb", "cur/", ""⟩ "2026-10-12"
        (fun _ => Except.ok ⟨["id"], [[Cell.int 1]]⟩) []).srcRead =
      some (if ("" : String) ≠ ""
        then "s3://" ++ "rb" ++ "/" ++ ""
        else "s3://" ++ "rb" ++ "/" ++ "raw/") ∧
    ∀ f ∈ (runJob ⟨"rb", "raw/", "cb", "cur/", ""⟩ "2026-10-12"
        (fun _ => Except.ok ⟨["id"], [[Cell.int 1]]⟩) []).store, f ∉ ([] : List OutFile) →
      ∃ rest, f.dir = "s3://" ++ "cb" ++ "/" ++ "cur/" ++ rest) :=
  ⟨Or.inl rfl,
   C5_resolved_locations _ _ _ _ (Or.inl rfl)⟩

end GlueEtl
